import Mathlib

/-!
Verification of the fairness-review notebook `Example_code_FFL_Review.ipynb`.
The notebook is a linear script: build a literal dataframe, drop the
prohibited columns, compute a Pearson correlation matrix, print a fixed
documentation dictionary, split 80/20 with a fixed seed, fit a logistic
regression, compute accuracy on the single test row and print a mitigation
message when the accuracy is below 0.75.  We embed the dataframe
operations, the split, the accuracy metric and the print trace of the
script, and prove the spec's testable properties about them.
-/

namespace FFLReview

/-- A dataframe cell: the literal dataset holds integers and strings. -/
inductive Val where
  | int : Int → Val
  | str : String → Val
deriving DecidableEq, Repr

/-- A column-oriented dataframe, as built by `pd.DataFrame(dict)`:
an ordered list of named columns. -/
structure DataFrame where
  cols : List (String × List Val)
deriving DecidableEq, Repr

/-- The column names, in order. -/
def DataFrame.colNames (d : DataFrame) : List String := d.cols.map Prod.fst

/-- `df.drop(columns=names)`: returns a new frame without the named
columns (pandas default `inplace=False` leaves the receiver untouched,
which the pure embedding reflects). -/
def DataFrame.drop (d : DataFrame) (names : List String) : DataFrame :=
  ⟨d.cols.filter (fun c => ¬ names.contains c.1)⟩

/-- Column lookup `df[name]`: the values of the first column with that
name, `[]` if absent. -/
def DataFrame.getCol (d : DataFrame) (name : String) : List Val :=
  ((d.cols.find? (fun c => c.1 == name)).map Prod.snd).getD []

/-- Number of rows: length of the first column. -/
def DataFrame.nRows (d : DataFrame) : ℕ :=
  ((d.cols.head?).map (fun c => c.2.length)).getD 0

/-- The literal dataset dictionary of the notebook. -/
def data : List (String × List Val) :=
  [ ("income", [Val.int 45000, Val.int 54000, Val.int 60000, Val.int 67000, Val.int 75000])
  , ("credit_score", [Val.int 620, Val.int 650, Val.int 700, Val.int 750, Val.int 800])
  , ("age", [Val.int 25, Val.int 40, Val.int 35, Val.int 50, Val.int 60])
  , ("loan_amount", [Val.int 20000, Val.int 25000, Val.int 30000, Val.int 35000, Val.int 40000])
  , ("gender", [Val.str "male", Val.str "female", Val.str "female", Val.str "male", Val.str "female"])
  , ("race", [Val.str "Caucasian", Val.str "African American", Val.str "Caucasian", Val.str "Hispanic", Val.str "Caucasian"])
  , ("approved", [Val.int 1, Val.int 0, Val.int 1, Val.int 1, Val.int 0]) ]

/-- `df = pd.DataFrame(data)`. -/
def df : DataFrame := ⟨data⟩

/-- `df_clean = df.drop(columns=['gender', 'race'])`. -/
def df_clean : DataFrame := df.drop ["gender", "race"]

/-- Numeric view of a cell (every column used numerically holds ints). -/
def valToQ : Val → ℚ
  | Val.int n => (n : ℚ)
  | Val.str _ => 0

/-- Integer view of a cell (used for the binary target column). -/
def valToInt : Val → Int
  | Val.int n => n
  | Val.str _ => 0

/-- A named column of `d`, read as rationals. -/
def colQ (d : DataFrame) (name : String) : List ℚ := (d.getCol name).map valToQ

/-- The four numeric columns selected by
`df[['income', 'credit_score', 'age', 'loan_amount']]`, in source order. -/
def numCol : Fin 4 → List ℚ :=
  ![colQ df "income", colQ df "credit_score", colQ df "age", colQ df "loan_amount"]

/-- Sample mean of a list of rationals. -/
def mean (xs : List ℚ) : ℚ := xs.sum / (xs.length : ℚ)

/-- Sum of products of deviations from the means (the unnormalised
covariance used by Pearson correlation). -/
def sumDevProd (xs ys : List ℚ) : ℚ :=
  ((xs.zip ys).map (fun p => (p.1 - mean xs) * (p.2 - mean ys))).sum

/-- Pearson correlation coefficient of two columns, as computed by
`DataFrame.corr()` (method pearson): covariance over the product of the
standard deviations. -/
noncomputable def pearson (xs ys : List ℚ) : ℝ :=
  ((sumDevProd xs ys : ℚ) : ℝ) /
    (Real.sqrt ((sumDevProd xs xs : ℚ) : ℝ) * Real.sqrt ((sumDevProd ys ys : ℚ) : ℝ))

/-- `correlations = df[['income', 'credit_score', 'age', 'loan_amount']].corr()`:
the 4x4 Pearson correlation matrix. -/
noncomputable def correlations (i j : Fin 4) : ℝ := pearson (numCol i) (numCol j)

/-- `X = df_clean.drop(columns=['approved'])`: the feature frame. -/
def X : DataFrame := df_clean.drop ["approved"]

/-- `y = df_clean['approved']`: the target column, as integers. -/
def y : List Int := (df_clean.getCol "approved").map valToInt

/-- The rows of the feature frame `X`, as vectors of rationals (the row
view that `train_test_split` shuffles). -/
def Xrows : List (List ℚ) :=
  (List.range X.nRows).map (fun i => X.cols.map (fun c => valToQ (c.2.getD i (Val.int 0))))

/-- Test-set size used by sklearn `train_test_split` for a fractional
`test_size`: the ceiling of `n * test_size`. -/
def nTest (n : ℕ) (testSize : ℚ) : ℕ := (Int.ceil ((n : ℚ) * testSize)).toNat

/-- Select the entries of `l` at the given indices (out-of-range indices
contribute nothing). -/
def sel {α : Type} (l : List α) (idx : List ℕ) : List α :=
  idx.filterMap (fun i => l[i]?)

/-- `train_test_split(X, y, test_size, random_state)`: the RNG seeded with
`random_state` produces a shuffled order `perm` of the row indices; the
first `nTest` shuffled indices form the test set and the rest the training
set.  Returns `(X_train, X_test, y_train, y_test)`. -/
def train_test_split {α β : Type} (Xd : List α) (yd : List β) (testSize : ℚ)
    (perm : List ℕ) : List α × List α × List β × List β :=
  (sel Xd (perm.drop (nTest Xd.length testSize)),
   sel Xd (perm.take (nTest Xd.length testSize)),
   sel yd (perm.drop (nTest Xd.length testSize)),
   sel yd (perm.take (nTest Xd.length testSize)))

/-- `accuracy_score(y_true, y_pred)`: fraction of positions where the
prediction equals the true label. -/
def accuracy_score (yTrue yPred : List Int) : ℚ :=
  (((yTrue.zip yPred).countP (fun p => p.1 == p.2) : ℕ) : ℚ) / ((yTrue.length : ℕ) : ℚ)

/-- An externally observable event.  The script only ever prints; the
other constructors exist so that "prints are the only effects" is a real
statement about the trace. -/
inductive Effect where
  | print (s : String)
  | fileWrite (path contents : String)
  | netOpen (addr : String)
  | envRead (name : String)
deriving DecidableEq, Repr

/-- The statements the notebook script is built from: printing,imperative
sequencing, and the single else-less conditional comparing a rational
against a threshold. -/
inductive Stmt where
  | print (s : String)
  | seq (a b : Stmt)
  | iflt (x c : ℚ) (t : Stmt)
  | skip
deriving DecidableEq, Repr

/-- Big-step execution relation: a statement together with the list of
effects it emits, in order. -/
inductive Exec : Stmt → List Effect → Prop where
  | print (s : String) : Exec (Stmt.print s) [Effect.print s]
  | seq {a b : Stmt} {o₁ o₂ : List Effect} :
      Exec a o₁ → Exec b o₂ → Exec (Stmt.seq a b) (o₁ ++ o₂)
  | ifT {x c : ℚ} {t : Stmt} {o : List Effect} :
      x < c → Exec t o → Exec (Stmt.iflt x c t) o
  | ifF {x c : ℚ} {t : Stmt} : ¬ x < c → Exec (Stmt.iflt x c t) []
  | skip : Exec Stmt.skip []

/-- Functional evaluator for statements. -/
def runStmt : Stmt → List Effect
  | Stmt.print s => [Effect.print s]
  | Stmt.seq a b => runStmt a ++ runStmt b
  | Stmt.iflt x c t => if x < c then runStmt t else []
  | Stmt.skip => []

/-- The mitigation message of the final threshold branch. -/
def mitigationMsg : String := "Disparate Impact detected, applying fairness mitigation..."

/-- The rendered text of `print(df_clean)`. -/
def dfCleanText : String :=
  "   income  credit_score  age  loan_amount  approved\n0   45000           620   25        20000         1\n1   54000           650   40        25000         0\n2   60000           700   35        30000         1\n3   67000           750   50        35000         1\n4   75000           800   60        40000         0"

/-- The rendered text of `print(correlations)`. -/
def corrText : String :=
  "                income  credit_score       age  loan_amount\nincome        1.000000      0.990916  0.949069     0.998222\ncredit_score  0.990916      1.000000  0.927740     0.996241\nage           0.949069      0.927740  1.000000     0.936329\nloan_amount   0.998222      0.996241  0.936329     1.000000"

/-- The notebook script as a statement: its prints in order, ending with
the else-less `if accuracy < 0.75` branch.  The accuracy produced by the
fitted model is the parameter `accuracy`. -/
def script (accuracy : ℚ) : Stmt :=
  Stmt.seq (Stmt.print "Cleaned dataset (after removing prohibited variables):")
  (Stmt.seq (Stmt.print dfCleanText)
  (Stmt.seq (Stmt.print "\nCorrelation matrix to identify proxy variables:")
  (Stmt.seq (Stmt.print corrText)
  (Stmt.seq (Stmt.print "\nVariable documentation and justification:")
  (Stmt.seq (Stmt.print "income: Represents the borrower’s ability to repay the loan. It is not a proxy for race or gender.")
  (Stmt.seq (Stmt.print "credit_score: A commonly used metric in assessing credit risk, not discriminatory.")
  (Stmt.seq (Stmt.print "age: Age is a neutral factor that is not prohibited under Fair Lending laws.")
  (Stmt.seq (Stmt.print "loan_amount: The loan amount requested is a non-discriminatory factor for loan approval.")
  (Stmt.iflt accuracy 0.75 (Stmt.print mitigationMsg))))))))))

/-- Counterexample to claim C4 as stated: the literal dataset has seven
columns, not six, so its description as a six-column dataset is false. -/
theorem df_not_six_columns : ¬ (df.colNames.length = 6) := by decide

/-- Claim C4 (amended): dropping gender and race from the seven-column, five-row
literal dataset yields exactly the columns income, credit_score, age,
loan_amount, approved, in that order, with all five rows and their values
unchanged. -/
theorem df_clean_columns :
    df_clean.cols =
      [ ("income", [Val.int 45000, Val.int 54000, Val.int 60000, Val.int 67000, Val.int 75000])
      , ("credit_score", [Val.int 620, Val.int 650, Val.int 700, Val.int 750, Val.int 800])
      , ("age", [Val.int 25, Val.int 40, Val.int 35, Val.int 50, Val.int 60])
      , ("loan_amount", [Val.int 20000, Val.int 25000, Val.int 30000, Val.int 35000, Val.int 40000])
      , ("approved", [Val.int 1, Val.int 0, Val.int 1, Val.int 1, Val.int 0]) ] := by
  decide

/-- The income column of the frame, evaluated. -/
theorem numCol_zero : numCol 0 = [(45000:ℚ), 54000, 60000, 67000, 75000] := rfl

/-- The credit_score column of the frame, evaluated. -/
theorem numCol_one : numCol 1 = [(620:ℚ), 650, 700, 750, 800] := rfl

/-- The age column of the frame, evaluated. -/
theorem numCol_two : numCol 2 = [(25:ℚ), 40, 35, 50, 60] := rfl

/-- The loan_amount column of the frame, evaluated. -/
theorem numCol_three : numCol 3 = [(20000:ℚ), 25000, 30000, 35000, 40000] := rfl

/-- The deviation-product sum is symmetric in its two columns. -/
theorem sumDevProd_comm (xs ys : List ℚ) : sumDevProd xs ys = sumDevProd ys xs := by
  unfold sumDevProd
  conv_rhs => rw [← List.zip_swap xs ys, List.map_map]
  congr 1
  apply List.map_congr_left
  intro p _
  simp only [Function.comp_apply, Prod.fst_swap, Prod.snd_swap]
  ring

/-- Pearson correlation is symmetric in its two columns. -/
theorem pearson_comm (xs ys : List ℚ) : pearson xs ys = pearson ys xs := by
  unfold pearson
  rw [sumDevProd_comm xs ys, mul_comm]

/-- A column of nonzero variance has Pearson correlation 1 with itself. -/
theorem pearson_self (xs : List ℚ) (h : 0 < sumDevProd xs xs) : pearson xs xs = 1 := by
  unfold pearson
  have h0 : (0 : ℝ) < ((sumDevProd xs xs : ℚ) : ℝ) := by exact_mod_cast h
  rw [Real.mul_self_sqrt h0.le, div_self h0.ne.symm]

/-- Claim C5: the 4x4 Pearson correlation matrix computed over the columns
income, credit_score, age, loan_amount is symmetric, and every diagonal
entry equals 1. -/
theorem correlations_symm_unit_diag :
    (∀ i j : Fin 4, correlations i j = correlations j i) ∧
    (∀ i : Fin 4, correlations i i = 1) := by
  constructor
  · intro i j
    exact pearson_comm (numCol i) (numCol j)
  · intro i
    apply pearson_self
    fin_cases i
    · rw [show numCol ⟨0, by omega⟩ = numCol 0 from rfl, numCol_zero]
      norm_num [sumDevProd, mean]
    · rw [show numCol ⟨1, by omega⟩ = numCol 1 from rfl, numCol_one]
      norm_num [sumDevProd, mean]
    · rw [show numCol ⟨2, by omega⟩ = numCol 2 from rfl, numCol_two]
      norm_num [sumDevProd, mean]
    · rw [show numCol ⟨3, by omega⟩ = numCol 3 from rfl, numCol_three]
      norm_num [sumDevProd, mean]
/-- The big-step execution relation is deterministic. -/
theorem exec_det {st : Stmt} {o₁ o₂ : List Effect} (h₁ : Exec st o₁) (h₂ : Exec st o₂) :
    o₁ = o₂ := by
  induction h₁ generalizing o₂ with
  | print s => cases h₂; rfl
  | seq ha hb iha ihb =>
      cases h₂ with
      | seq ha2 hb2 => rw [iha ha2, ihb hb2]
  | ifT hx ht iht =>
      cases h₂ with
      | ifT hx2 ht2 => exact iht ht2
      | ifF hx2 => exact absurd hx hx2
  | ifF hx =>
      cases h₂ with
      | ifT hx2 ht2 => exact absurd hx2 hx
      | ifF hx2 => rfl
  | skip => cases h₂; rfl

/-- Every statement executes to exactly the trace the evaluator computes. -/
theorem exec_runStmt (st : Stmt) : Exec st (runStmt st) := by
  induction st with
  | print s => exact Exec.print s
  | seq a b iha ihb => exact Exec.seq iha ihb
  | iflt x c t iht =>
      by_cases hx : x < c
      · simpa [runStmt, hx] using Exec.ifT hx iht
      · simpa [runStmt, hx] using Exec.ifF (t := t) hx
  | skip => exact Exec.skip

/-- Every effect a statement emits is a print. -/
theorem exec_prints_only {st : Stmt} {o : List Effect} (h : Exec st o) :
    ∀ e ∈ o, ∃ s, e = Effect.print s := by
  induction h with
  | print s =>
      intro e he
      simp only [List.mem_singleton] at he
      exact ⟨s, he⟩
  | seq ha hb iha ihb =>
      intro e he
      rcases List.mem_append.mp he with h | h
      · exact iha e h
      · exact ihb e h
  | ifT hx ht iht => exact iht
  | ifF hx => intro e he; simp at he
  | skip => intro e he; simp at he

/-- Claim C1: whatever accuracy value the fitted model produces, the script
prints the mitigation message exactly when the accuracy is strictly less
than 0.75; since the branch has no else, the message appears only in that
case. -/
theorem mitigation_iff_low_accuracy (a : ℚ) :
    Effect.print mitigationMsg ∈ runStmt (script a) ↔ a < 0.75 := by
  by_cases hx : a < 0.75
  · simp [script, runStmt, hx]
  · simp [script, runStmt, hx, mitigationMsg, dfCleanText, corrText]

/-- Claim C6: the script is deterministic: the dataset is hardcoded and the
seeded split and fit are fixed inputs, so any two executions of the script
produce identical effect traces (hence identical standard output). -/
theorem script_run_deterministic (a : ℚ) (o₁ o₂ : List Effect)
    (h₁ : Exec (script a) o₁) (h₂ : Exec (script a) o₂) : o₁ = o₂ :=
  exec_det h₁ h₂

/-- Witness instantiating the determinism theorem at accuracy 0, with both
executions given by the evaluator. -/
theorem script_run_deterministic_witness :
    runStmt (script 0) = runStmt (script 0) :=
  script_run_deterministic 0 (runStmt (script 0)) (runStmt (script 0))
    (exec_runStmt (script 0)) (exec_runStmt (script 0))

/-- Claim C7: standard output is the script's only externally observable
effect: every event in any execution trace of the script is a console
print, never a file write, network open or environment read. -/
theorem script_effects_print_only (a : ℚ) (o : List Effect) (h : Exec (script a) o) :
    ∀ e ∈ o, ∃ s, e = Effect.print s :=
  exec_prints_only h

/-- Witness instantiating the effects theorem on the first print of the
concrete trace at accuracy 0. -/
theorem script_effects_print_only_witness :
    ∃ s, Effect.print "Cleaned dataset (after removing prohibited variables):" = Effect.print s :=
  script_effects_print_only 0 (runStmt (script 0)) (exec_runStmt (script 0))
    (Effect.print "Cleaned dataset (after removing prohibited variables):")
    (by simp [script, runStmt])
/-- Counterexample to claim C8 as stated: the original frame has seven
columns, not six. -/
theorem df_cols_seven_not_six : df.cols.length = 7 ∧ ¬ (df.cols.length = 6) := by decide

/-- Claim C8 (amended): dropping gender and race does not mutate the
original frame: after `df_clean` is computed, `df` still has all seven
columns with their five rows, and the numeric columns the correlation step
reads from `df` are the unchanged literal values. -/
theorem drop_does_not_mutate :
    df_clean = df.drop ["gender", "race"] ∧
    df.colNames = ["income", "credit_score", "age", "loan_amount", "gender", "race", "approved"] ∧
    (df.cols.all (fun c => c.2.length == 5)) = true ∧
    colQ df "income" = [(45000 : ℚ), 54000, 60000, 67000, 75000] ∧
    colQ df "credit_score" = [(620 : ℚ), 650, 700, 750, 800] ∧
    colQ df "age" = [(25 : ℚ), 40, 35, 50, 60] ∧
    colQ df "loan_amount" = [(20000 : ℚ), 25000, 30000, 35000, 40000] :=
  ⟨rfl, rfl, rfl, rfl, rfl, rfl, rfl⟩

/-- Claim C9: the feature/target preparation partitions the cleaned frame's
columns: `X` has exactly the four columns income, credit_score, age,
loan_amount in that order, `y` is exactly the approved column, and together
they cover every column of `df_clean` with none shared. -/
theorem X_y_partition :
    X.colNames = ["income", "credit_score", "age", "loan_amount"] ∧
    df_clean.getCol "approved" = [Val.int 1, Val.int 0, Val.int 1, Val.int 1, Val.int 0] ∧
    y = [1, 0, 1, 1, 0] ∧
    X.colNames ++ ["approved"] = df_clean.colNames ∧
    ¬ ("approved" ∈ X.colNames) := by
  refine ⟨rfl, rfl, rfl, rfl, ?_⟩
  decide
/-- Selecting at a valid head index picks out that entry. -/
theorem sel_cons_of_lt {α : Type} (l : List α) (i : ℕ) (t : List ℕ) (hi : i < l.length) :
    sel l (i :: t) = l[i] :: sel l t := by
  simp [sel, List.getElem?_eq_getElem hi]

/-- Selecting at valid indices yields one entry per index. -/
theorem sel_length {α : Type} (l : List α) (idx : List ℕ)
    (h : ∀ i ∈ idx, i < l.length) : (sel l idx).length = idx.length := by
  induction idx with
  | nil => rfl
  | cons i t ih =>
      rw [sel_cons_of_lt l i t (h i (List.mem_cons_self i t))]
      simp [ih fun j hj => h j (List.mem_cons_of_mem i hj)]

/-- On valid indices, selection is the map of the defaulted lookup. -/
theorem sel_eq_map {α : Type} (l : List α) (d : α) (idx : List ℕ)
    (h : ∀ i ∈ idx, i < l.length) :
    sel l idx = idx.map (fun i => l.getD i d) := by
  induction idx with
  | nil => rfl
  | cons i t ih =>
      have hi : i < l.length := h i (List.mem_cons_self i t)
      rw [sel_cons_of_lt l i t hi, List.map_cons,
        ih fun j hj => h j (List.mem_cons_of_mem i hj), List.getD_eq_getElem l d hi]

/-- Claim C3: for any shuffled index order the seeded RNG can produce,
`train_test_split` on the five-row data with test size 0.2 yields exactly
one test row and four training rows, for both features and targets. -/
theorem split_one_test_row (perm : List ℕ) (h : List.Perm perm (List.range 5)) :
    (train_test_split Xrows y 0.2 perm).2.1.length = 1 ∧
    (train_test_split Xrows y 0.2 perm).1.length = 4 ∧
    (train_test_split Xrows y 0.2 perm).2.2.2.length = 1 ∧
    (train_test_split Xrows y 0.2 perm).2.2.1.length = 4 := by
  have hX : Xrows.length = 5 := by decide
  have hy : y.length = 5 := by decide
  have hnX : nTest Xrows.length 0.2 = 1 := by rw [hX]; norm_num [nTest]
  have hlen : perm.length = 5 := by simpa using h.length_eq
  have hmem : ∀ i ∈ perm, i < 5 := fun i hi => List.mem_range.mp (h.mem_iff.mp hi)
  have hvX : ∀ i ∈ perm, i < Xrows.length := by rw [hX]; exact hmem
  have hvy : ∀ i ∈ perm, i < y.length := by rw [hy]; exact hmem
  refine ⟨?_, ?_, ?_, ?_⟩ <;> simp only [train_test_split, hnX]
  · rw [sel_length Xrows _ fun i hi => hvX i (List.mem_of_mem_take hi)]
    simp [hlen]
  · rw [sel_length Xrows _ fun i hi => hvX i (List.drop_subset 1 perm hi)]
    simp [hlen]
  · rw [sel_length y _ fun i hi => hvy i (List.mem_of_mem_take hi)]
    simp [hlen]
  · rw [sel_length y _ fun i hi => hvy i (List.drop_subset 1 perm hi)]
    simp [hlen]
/-- Claim C10: the train/test split partitions the five rows: the selected
train and test index lists are disjoint, and the (features, target) pairs
of the train and test sets together are a permutation of the original five
row/target pairs, so every split row keeps the approved value it was paired
with before the split. -/
theorem split_partition (perm : List ℕ) (h : List.Perm perm (List.range 5)) :
    (((train_test_split Xrows y 0.2 perm).1.zip (train_test_split Xrows y 0.2 perm).2.2.1)
        ++ ((train_test_split Xrows y 0.2 perm).2.1.zip (train_test_split Xrows y 0.2 perm).2.2.2)).Perm
      (Xrows.zip y) ∧
    (perm.take (nTest Xrows.length 0.2)).Disjoint (perm.drop (nTest Xrows.length 0.2)) := by
  have hX : Xrows.length = 5 := by decide
  have hy : y.length = 5 := by decide
  have hmem : ∀ i ∈ perm, i < 5 := fun i hi => List.mem_range.mp (h.mem_iff.mp hi)
  have hvX : ∀ i ∈ perm, i < Xrows.length := by rw [hX]; exact hmem
  have hvy : ∀ i ∈ perm, i < y.length := by rw [hy]; exact hmem
  constructor
  · have hrowPair :
        ∀ idx : List ℕ, (∀ i ∈ idx, i ∈ perm) →
          (sel Xrows idx).zip (sel y idx) =
            idx.map (fun i => (Xrows.getD i [], y.getD i 0)) := by
      intro idx hidx
      rw [sel_eq_map Xrows [] idx fun i hi => hvX i (hidx i hi),
        sel_eq_map y 0 idx fun i hi => hvy i (hidx i hi), List.zip_map']
    simp only [train_test_split]
    rw [hrowPair _ fun i hi => List.drop_subset _ perm hi,
      hrowPair _ fun i hi => List.mem_of_mem_take hi, ← List.map_append]
    have hperm2 : List.Perm
        (perm.drop (nTest Xrows.length 0.2) ++ perm.take (nTest Xrows.length 0.2)) perm := by
      exact (List.perm_append_comm).trans (by rw [List.take_append_drop])
    have hmap : (List.range 5).map (fun i => (Xrows.getD i [], y.getD i 0)) = Xrows.zip y := by
      decide
    exact ((hperm2.map _).trans (h.map _)).trans (by rw [hmap])
  · have hnodup : perm.Nodup := h.nodup_iff.mpr (List.nodup_range 5)
    have : (perm.take (nTest Xrows.length 0.2) ++ perm.drop (nTest Xrows.length 0.2)).Nodup := by
      rw [List.take_append_drop]; exact hnodup
    exact (List.nodup_append.mp this).2.2

/-- Accuracy of a one-element prediction list against a one-element truth
list is 0 or 1. -/
theorem accuracy_single (t pr : Int) :
    accuracy_score [t] [pr] = 0 ∨ accuracy_score [t] [pr] = 1 := by
  by_cases hq : t = pr
  · right; norm_num [accuracy_score, hq]
  · left; norm_num [accuracy_score, hq]

/-- Claim C2: the accuracy computed by `accuracy_score` on the single-row
test set is either exactly 0 or exactly 1, for every prediction the fitted
model can make on that row and every shuffled order the seed can produce. -/
theorem accuracy_zero_or_one (perm : List ℕ) (h : List.Perm perm (List.range 5)) (pred : Int) :
    accuracy_score (train_test_split Xrows y 0.2 perm).2.2.2 [pred] = 0 ∨
    accuracy_score (train_test_split Xrows y 0.2 perm).2.2.2 [pred] = 1 := by
  have hX : Xrows.length = 5 := by decide
  have hnX : nTest Xrows.length 0.2 = 1 := by rw [hX]; norm_num [nTest]
  have hlen : perm.length = 5 := by simpa using h.length_eq
  obtain ⟨i, rest, rfl⟩ : ∃ i rest, perm = i :: rest := by
    cases perm with
    | nil => simp at hlen
    | cons a l => exact ⟨a, l, rfl⟩
  have hi : i < 5 := List.mem_range.mp (h.mem_iff.mp (List.mem_cons_self i rest))
  have hiy : i < y.length := by
    have hy : y.length = 5 := by decide
    omega
  have hsel : sel y ((i :: rest).take 1) = [y.getD i 0] := by
    simp [sel, List.getElem?_eq_getElem hiy, List.getD_eq_getElem y 0 hiy]
  simp only [train_test_split, hnX, hsel]
  exact accuracy_single (y.getD i 0) pred
/-- Witness instantiating the split-size theorem at a concrete shuffled
order. -/
theorem split_one_test_row_witness :
    (train_test_split Xrows y 0.2 [1, 4, 2, 0, 3]).2.1.length = 1 ∧
    (train_test_split Xrows y 0.2 [1, 4, 2, 0, 3]).1.length = 4 ∧
    (train_test_split Xrows y 0.2 [1, 4, 2, 0, 3]).2.2.2.length = 1 ∧
    (train_test_split Xrows y 0.2 [1, 4, 2, 0, 3]).2.2.1.length = 4 :=
  split_one_test_row [1, 4, 2, 0, 3] (by decide)

/-- Witness instantiating the partition theorem at a concrete shuffled
order. -/
theorem split_partition_witness :
    (((train_test_split Xrows y 0.2 [1, 4, 2, 0, 3]).1.zip
          (train_test_split Xrows y 0.2 [1, 4, 2, 0, 3]).2.2.1)
        ++ ((train_test_split Xrows y 0.2 [1, 4, 2, 0, 3]).2.1.zip
          (train_test_split Xrows y 0.2 [1, 4, 2, 0, 3]).2.2.2)).Perm
      (Xrows.zip y) ∧
    (([1, 4, 2, 0, 3] : List ℕ).take (nTest Xrows.length 0.2)).Disjoint
      (([1, 4, 2, 0, 3] : List ℕ).drop (nTest Xrows.length 0.2)) :=
  split_partition [1, 4, 2, 0, 3] (by decide)

/-- Witness instantiating the accuracy theorem at a concrete shuffled order
and prediction. -/
theorem accuracy_zero_or_one_witness :
    accuracy_score (train_test_split Xrows y 0.2 [1, 4, 2, 0, 3]).2.2.2 [1] = 0 ∨
    accuracy_score (train_test_split Xrows y 0.2 [1, 4, 2, 0, 3]).2.2.2 [1] = 1 :=
  accuracy_zero_or_one [1, 4, 2, 0, 3] (by decide) 1

end FFLReview
